import Mathlib

/-!
Formal model of the customer-verification + routing subgraph of the
TechHub workshop codebase (`agents/supervisor_hitl_agent.py`) and of the
SQL safety filter (`tools/database.py`), with theorems checking the
natural-language specification against the code.

The Python state machine is shallowly embedded: LLM calls (query
classification, email extraction) are black-box oracles passed in as
functions; the SQLite customer table is a list of rows; each graph node
is a pure function from conversation state to a LangGraph-style
`Command` (state update + goto), paired with the list of oracle calls
the node performs, so that "the oracle is invoked exactly once / never"
is a provable statement.
-/

/-- Role of a conversation message (`HumanMessage` / `AIMessage`). -/
inductive Role where
  | user
  | assistant
deriving DecidableEq, Repr

/-- A conversation message: role plus text content. -/
structure Message where
  role : Role
  content : String
deriving DecidableEq, Repr

/-- Constructor mirroring langchain `AIMessage(content=...)`. -/
def AIMessage (content : String) : Message := ⟨Role.assistant, content⟩

/-- Constructor mirroring langchain `HumanMessage(content=...)`. -/
def HumanMessage (content : String) : Message := ⟨Role.user, content⟩

/-- Python `s.strip()`: leading and trailing whitespace removed. -/
def strTrim (s : String) : String :=
  String.mk (((s.data.dropWhile Char.isWhitespace).reverse.dropWhile
    Char.isWhitespace).reverse)

/-- Python `s.upper()` (the queries here are ASCII): uppercase every
character. -/
def strUpper (s : String) : String := String.mk (s.data.map Char.toUpper)

/-- Python `s.startswith(pat)`. -/
def strStartsWith (s pat : String) : Bool := pat.data.isPrefixOf s.data

/-- Whether `pat` occurs as a contiguous run inside `l`. -/
def hasSubstr (pat : List Char) : List Char → Bool
  | [] => pat.isEmpty
  | c :: rest => pat.isPrefixOf (c :: rest) || hasSubstr pat rest

/-- Python `pat in s` (substring containment). -/
def pyIn (pat s : String) : Bool := hasSubstr pat.data s.data

/-- Conversation state (`CustomState` in the source): the message list
plus the optional `customer_id` key. `none` models the key being absent
from the state dict. -/
structure CustomState where
  messages : List Message
  customer_id : Option String
deriving DecidableEq, Repr

/-- Python truthiness of `state.get("customer_id")`: the key is present
and the string is non-empty. -/
def truthy : Option String → Bool
  | none => false
  | some s => !s.isEmpty

/-- Result schema of the classification oracle (`QueryClassification`). -/
structure QueryClassification where
  reasoning : String
  requires_verification : Bool
deriving DecidableEq, Repr

/-- A row of the `customers` table: `customer_id`, `email` (unique per
the store contract), display `name`. -/
structure Customer where
  customer_id : String
  email : String
  name : String
deriving DecidableEq, Repr

/-- Validation result (`CustomerInfo` NamedTuple in the source). -/
structure CustomerInfo where
  customer_id : String
  customer_name : String
deriving DecidableEq, Repr

/-- The query `SELECT customer_id, name FROM customers WHERE email = ?`
followed by `fetchone()`: the first row whose email matches, if any. -/
def lookupCustomer : List Customer → String → Option Customer
  | [], _ => none
  | c :: rest, e => if c.email = e then some c else lookupCustomer rest e

/-- Faithful translation of `validate_customer_email`, instrumented with
the number of customer-store queries performed (second component), so
that "no lookup attempted" is provable.  The store is the list of rows
of the `customers` table.

```python
if not email or "@" not in email:
    return None
cursor.execute("SELECT customer_id, name FROM customers WHERE email = ?", (email,))
result = cursor.fetchone()
if not result:
    return None
return CustomerInfo(customer_id=result[0], customer_name=result[1])
``` -/
def validate_customer_email_impl (store : List Customer) (email : String) :
    Option CustomerInfo × Nat :=
  if email.isEmpty || !(email.data.contains '@') then (none, 0)
  else
    match lookupCustomer store email with
    | none => (none, 1)
    | some c => (some ⟨c.customer_id, c.name⟩, 1)

/-- `validate_customer_email`: the returned value (first component of the
instrumented version). -/
def validate_customer_email (store : List Customer) (email : String) :
    Option CustomerInfo :=
  (validate_customer_email_impl store email).1

/-- Fallible-store variant of `validate_customer_email`: the store
lookup may fail (store unreachable / query error).  The Python source
wraps the sqlite calls in no `try` block, so a lookup exception
propagates out of the function; the `Except` monad makes that implicit
propagation explicit.  `Except.ok none` is the "email not found" return,
`Except.error` the propagated infrastructure failure. -/
def validate_customer_email_exc (lookup : String → Except String (Option Customer))
    (email : String) : Except String (Option CustomerInfo) :=
  if email.isEmpty || !(email.data.contains '@') then Except.ok none
  else
    match lookup email with
    | Except.error e => Except.error e
    | Except.ok none => Except.ok none
    | Except.ok (some c) => Except.ok (some ⟨c.customer_id, c.name⟩)

/-- Graph nodes of the verification state machine.  `supervisor_agent`
is the specialist responder ("respond"). -/
inductive Node where
  | query_router
  | verify_customer
  | collect_email
  | supervisor_agent
deriving DecidableEq, Repr

/-- A LangGraph `Command` as the nodes here use it: an optional write to
the `customer_id` key, a list of messages to append (the `messages` key
has an append reducer), and the goto target. -/
structure NodeCmd where
  setCid : Option String
  newMsgs : List Message
  goto : Node
deriving DecidableEq, Repr

/-- Applying a `Command`'s update to the state: messages are appended by
the reducer, `customer_id` is overwritten when the update carries it. -/
def applyCmd (s : CustomState) (c : NodeCmd) : CustomState :=
  { messages := s.messages ++ c.newMsgs
    customer_id := match c.setCid with
      | none => s.customer_id
      | some v => some v }

/-- The external LLM oracles and the customer store, as seen by the
nodes.  `classify` is `classify_query_intent`; `extract` is the
structured-output email extractor (returns the extracted email string,
empty when none found); `store` is the `customers` table. -/
structure Oracles where
  classify : String → QueryClassification
  extract : String → String
  store : List Customer

/-- One recorded oracle invocation, for proving call-count properties. -/
inductive OracleCall where
  | classifyCall (query : String)
  | extractCall (content : String)
deriving DecidableEq, Repr

/-- Faithful translation of the `query_router` node.  `none` models the
`IndexError` of `state["messages"][-1]` on an empty message list (never
reached when `customer_id` is truthy, as in the source).  The second
component records the oracle calls made.

```python
if state.get("customer_id"):
    return Command(goto="supervisor_agent")
last_message = state["messages"][-1]
query_classification = classify_query_intent(last_message.content)
if query_classification.get("requires_verification"):
    return Command(goto="verify_customer")
return Command(goto="supervisor_agent")
``` -/
def query_router (o : Oracles) (s : CustomState) :
    Option (NodeCmd × List OracleCall) :=
  if truthy s.customer_id then some (⟨none, [], Node.supervisor_agent⟩, [])
  else
    match s.messages.getLast? with
    | none => none
    | some last =>
      let cls := o.classify last.content
      if cls.requires_verification then
        some (⟨none, [], Node.verify_customer⟩, [OracleCall.classifyCall last.content])
      else
        some (⟨none, [], Node.supervisor_agent⟩, [OracleCall.classifyCall last.content])

/-- Faithful translation of the `verify_customer` node.  The extraction
oracle is invoked on the last message; a non-empty extracted email is
validated against the store; the three branches mirror the source:
verified → set `customer_id`, welcome message, goto supervisor; email
extracted but not validated → "not found" message, goto collect; no
email → ask for one, goto collect. -/
def verify_customer (o : Oracles) (s : CustomState) :
    Option (NodeCmd × List OracleCall) :=
  match s.messages.getLast? with
  | none => none
  | some last =>
    let email := o.extract last.content
    if email.isEmpty then
      some (⟨none,
        [AIMessage "To access information about your account or orders, please provide your email address."],
        Node.collect_email⟩, [OracleCall.extractCall last.content])
    else
      match validate_customer_email o.store email with
      | some customer =>
        some (⟨some customer.customer_id,
          [AIMessage ("✓ Verified! Welcome back, " ++ customer.customer_name ++ ".")],
          Node.supervisor_agent⟩, [OracleCall.extractCall last.content])
      | none =>
        some (⟨none,
          [AIMessage ("I couldn\u0027t find \u0027" ++ email ++ "\u0027 in our system. Please check and try again.")],
          Node.collect_email⟩, [OracleCall.extractCall last.content])

/-- The `collect_email` node after its `interrupt` resumes with the
human-provided text: append it as a user message and return to verify. -/
def collect_email (user_input : String) : NodeCmd :=
  ⟨none, [HumanMessage user_input], Node.verify_customer⟩

/-- Result of running the verification subgraph within one user turn. -/
inductive TurnOutcome where
  | reachedSupervisor (s : CustomState)
  | suspended (s : CustomState)
  | crashed
  | fuelOut
deriving DecidableEq, Repr

/-- Trace of one run of the verification subgraph: the outcome, every
oracle call made, and every node visited, in order. -/
structure TurnTrace where
  outcome : TurnOutcome
  calls : List OracleCall
  visited : List Node
deriving DecidableEq, Repr

/-- Executor for the verification subgraph, by fuel.  Execution starts
at a node and follows each `Command.goto` until it reaches the
`supervisor_agent` node (the specialist responder), suspends at
`collect_email` when no further human input is available, or crashes on
an empty message list.  `humans` is the queue of human replies the
`interrupt` in `collect_email` resumes with. -/
def runVerifyLoop (o : Oracles) : Nat → List String → Node → CustomState → TurnTrace
  | 0, _, _, _ => ⟨TurnOutcome.fuelOut, [], []⟩
  | Nat.succ fuel, humans, n, s =>
    match n with
    | Node.supervisor_agent =>
      ⟨TurnOutcome.reachedSupervisor s, [], [Node.supervisor_agent]⟩
    | Node.query_router =>
      match query_router o s with
      | none => ⟨TurnOutcome.crashed, [], [Node.query_router]⟩
      | some (cmd, calls) =>
        let rest := runVerifyLoop o fuel humans cmd.goto (applyCmd s cmd)
        ⟨rest.outcome, calls ++ rest.calls, Node.query_router :: rest.visited⟩
    | Node.verify_customer =>
      match verify_customer o s with
      | none => ⟨TurnOutcome.crashed, [], [Node.verify_customer]⟩
      | some (cmd, calls) =>
        let rest := runVerifyLoop o fuel humans cmd.goto (applyCmd s cmd)
        ⟨rest.outcome, calls ++ rest.calls, Node.verify_customer :: rest.visited⟩
    | Node.collect_email =>
      match humans with
      | [] => ⟨TurnOutcome.suspended s, [], [Node.collect_email]⟩
      | h :: hs =>
        let cmd := collect_email h
        let rest := runVerifyLoop o fuel hs cmd.goto (applyCmd s cmd)
        ⟨rest.outcome, rest.calls, Node.collect_email :: rest.visited⟩

/-- One user turn: the inbound user message is appended to state and the
graph is entered at `query_router` (the `START` edge of the compiled
graph). -/
def runTurn (o : Oracles) (fuel : Nat) (humans : List String) (u : String)
    (s : CustomState) : TurnTrace :=
  runVerifyLoop o fuel humans Node.query_router
    ⟨s.messages ++ [HumanMessage u], s.customer_id⟩

/-- A whole conversation: each element of `turns` is one inbound user
message together with the human replies available to `collect_email`
during that turn.  `respond` is the specialist responder.  Modelled from
the spec for the responder boundary: it receives the conversation state
and appends assistant messages, leaving `customer_id` unchanged (its
implementation is LLM glue outside the verification core).  Returns the
final state, the concatenated oracle-call trace and the visited-node
trace, or `none` when a turn suspends, crashes or runs out of fuel. -/
def runConversation (o : Oracles) (respond : CustomState → List Message) (fuel : Nat) :
    List (String × List String) → CustomState →
    Option (CustomState × List OracleCall × List Node)
  | [], s => some (s, [], [])
  | (u, humans) :: rest, s =>
    match runTurn o fuel humans u s with
    | ⟨TurnOutcome.reachedSupervisor s1, calls, visited⟩ =>
      match runConversation o respond fuel rest ⟨s1.messages ++ respond s1, s1.customer_id⟩ with
      | some (sf, cs, vs) => some (sf, calls ++ cs, visited ++ vs)
      | none => none
    | _ => none

/-- The keyword blocklist of `execute_sql` (`tools/database.py`). -/
def FORBIDDEN : List String :=
  ["INSERT", "UPDATE", "DELETE", "ALTER", "DROP", "CREATE", "REPLACE", "TRUNCATE"]

/-- What `execute_sql` returns: an error string or a list of result
rows. -/
inductive SqlResult where
  | errMsg (msg : String)
  | rows (r : List (List String))
deriving DecidableEq, Repr

/-- Faithful translation of `execute_sql` (`tools/database.py`).  `db`
is the underlying database execution (already value-extracted rows),
which may raise — the `try` block in the source turns a raised exception
into a "SQL Error: ..." string.

```python
if not query.strip().upper().startswith("SELECT"):
    return "Error: Only SELECT queries are allowed."
if any(keyword in query.upper() for keyword in FORBIDDEN):
    return "Error: Query contains forbidden keyword."
try:
    result = db._execute(query)
    ...
except Exception as e:
    return f"SQL Error: ..."
``` -/
def execute_sql (db : String → Except String (List (List String)))
    (query : String) : SqlResult :=
  if !(strStartsWith (strUpper (strTrim query)) "SELECT") then
    SqlResult.errMsg "Error: Only SELECT queries are allowed."
  else if FORBIDDEN.any (fun kw => pyIn kw (strUpper query)) then
    SqlResult.errMsg "Error: Query contains forbidden keyword."
  else
    match db query with
    | Except.ok r => SqlResult.rows r
    | Except.error e => SqlResult.errMsg ("SQL Error: " ++ e)

/-! Concrete fixtures used by witnesses and counterexamples. -/

/-- A registered customer row mirroring the workshop data. -/
def sarah : Customer := ⟨"CUST-001", "sarah.chen@gmail.com", "Sarah Chen"⟩

/-- A one-row customer store. -/
def storeW : List Customer := [sarah]

/-- Oracles whose extractor finds Sarah's registered email. -/
def oraclesSarah : Oracles :=
  ⟨fun _ => ⟨"account query", true⟩, fun _ => "sarah.chen@gmail.com", storeW⟩

/-- State whose last message carries Sarah's email, identity unresolved. -/
def stateSarah : CustomState := ⟨[HumanMessage "sarah.chen@gmail.com"], none⟩

/-- Oracles for an already-verified conversation (never consulted). -/
def oraclesW : Oracles := ⟨fun _ => ⟨"needs id", true⟩, fun _ => "", []⟩

/-- A specialist responder stub appending one assistant answer. -/
def respondW : CustomState → List Message := fun _ => [AIMessage "Here is your answer."]

/-- A conversation state already carrying a verified customer id. -/
def stateVerified : CustomState := ⟨[], some "CUST-001"⟩

/-- Oracles classifying the query as not needing verification. -/
def oraclesPolicy : Oracles := ⟨fun _ => ⟨"general question", false⟩, fun _ => "", []⟩

/-- State with a general policy question, identity unresolved. -/
def statePolicy : CustomState := ⟨[HumanMessage "What is your return policy?"], none⟩

/-- A store row whose email lacks an "@" (pathological but registered). -/
def cexCustomer : Customer := ⟨"CUST-9", "bob", "Bob"⟩

/-- Oracles whose extractor returns the registered-but-malformed email. -/
def cexOracles : Oracles := ⟨fun _ => ⟨"", true⟩, fun _ => "bob", [cexCustomer]⟩

/-- State whose last message mentions that email. -/
def cexState : CustomState := ⟨[HumanMessage "my email is bob"], none⟩

/-- Oracles extracting an email absent from the store. -/
def oraclesUnknown : Oracles :=
  ⟨fun _ => ⟨"", true⟩, fun _ => "zoe@nowhere.com", storeW⟩

/-- State whose last message carries the unknown email. -/
def stateUnknown : CustomState := ⟨[HumanMessage "zoe@nowhere.com"], none⟩

/-- Oracles whose extractor finds no email at all. -/
def oraclesNoEmail : Oracles := ⟨fun _ => ⟨"", true⟩, fun _ => "", storeW⟩

/-- State with a message containing no email, identity unresolved. -/
def stateNoEmail : CustomState := ⟨[HumanMessage "Where are my orders?"], none⟩

/-- A store lookup that always fails (store unreachable). -/
def failLookup : String → Except String (Option Customer) :=
  fun _ => Except.error "store unreachable"

/-- A database stub returning an empty result set. -/
def dbOk : String → Except String (List (List String)) := fun _ => Except.ok []

/-- A database stub that always raises. -/
def dbErr : String → Except String (List (List String)) :=
  fun _ => Except.error "boom"

/-! Helper lemmas. -/

theorem lookupCustomer_eq_none (store : List Customer) (e : String)
    (h : ∀ c ∈ store, c.email ≠ e) : lookupCustomer store e = none := by
  induction store with
  | nil => rfl
  | cons c rest ih =>
    have hc : c.email ≠ e := h c (by simp)
    simp only [lookupCustomer, if_neg hc]
    exact ih (fun d hd => h d (by simp [hd]))

theorem lookupCustomer_isSome_of_mem (store : List Customer) (e : String)
    (h : ∃ c, c ∈ store ∧ c.email = e) : ∃ c, lookupCustomer store e = some c := by
  induction store with
  | nil => rcases h with ⟨c, hc, _⟩; cases hc
  | cons d rest ih =>
    by_cases hd : d.email = e
    · exact ⟨d, by simp [lookupCustomer, hd]⟩
    · rcases h with ⟨c, hc, he⟩
      rcases List.mem_cons.mp hc with rfl | hc2
      · exact absurd he hd
      · rcases ih ⟨c, hc2, he⟩ with ⟨c2, hc2'⟩
        exact ⟨c2, by simp [lookupCustomer, hd, hc2']⟩

theorem applyCmd_goto_only (s : CustomState) (g : Node) :
    applyCmd s ⟨none, [], g⟩ = s := by
  cases s
  simp [applyCmd]

/-- C3: an empty input or one without "@" is rejected by
`validate_customer_email` with the not-found result and zero store
lookups, for every possible store contents (so the result cannot depend
on the store). -/
theorem validate_customer_email_structural_reject (email : String)
    (h : email.isEmpty = true ∨ email.data.contains '@' = false) :
    ∀ store : List Customer, validate_customer_email_impl store email = (none, 0) := by
  intro store
  unfold validate_customer_email_impl
  rcases h with h | h
  · simp [h]
  · rw [h]
    simp

theorem runVerifyLoop_verified_step (o : Oracles) (k : Nat) (humans : List String)
    (s : CustomState) (h : truthy s.customer_id = true) :
    runVerifyLoop o (k + 2) humans Node.query_router s =
      ⟨TurnOutcome.reachedSupervisor s, [], [Node.query_router, Node.supervisor_agent]⟩ := by
  have hq : query_router o s = some (⟨none, [], Node.supervisor_agent⟩, []) := by
    unfold query_router
    simp [h]
  show runVerifyLoop o (Nat.succ (k + 1)) humans Node.query_router s = _
  simp only [runVerifyLoop, hq, applyCmd_goto_only]
  show (⟨(runVerifyLoop o (Nat.succ k) humans Node.supervisor_agent s).outcome, _, _⟩ : TurnTrace) = _
  simp [runVerifyLoop]

theorem runConversation_verified_aux (o : Oracles) (respond : CustomState → List Message)
    (k : Nat) (turns : List (String × List String)) :
    ∀ s : CustomState, truthy s.customer_id = true →
    ∃ sf calls visited,
      runConversation o respond (k + 2) turns s = some (sf, calls, visited) ∧
      calls = [] ∧
      visited = (turns.map (fun _ => [Node.query_router, Node.supervisor_agent])).flatten ∧
      Node.verify_customer ∉ visited ∧
      Node.collect_email ∉ visited ∧
      sf.customer_id = s.customer_id := by
  induction turns with
  | nil =>
    intro s h
    exact ⟨s, [], [], rfl, rfl, by simp, by simp, by simp, rfl⟩
  | cons t rest ih =>
    intro s h
    obtain ⟨u, humans⟩ := t
    have hturn : runTurn o (k + 2) humans u s =
        ⟨TurnOutcome.reachedSupervisor ⟨s.messages ++ [HumanMessage u], s.customer_id⟩,
          [], [Node.query_router, Node.supervisor_agent]⟩ := by
      unfold runTurn
      exact runVerifyLoop_verified_step o k humans _ h
    rcases ih ⟨(s.messages ++ [HumanMessage u]) ++
        respond ⟨s.messages ++ [HumanMessage u], s.customer_id⟩, s.customer_id⟩ h with
      ⟨sf, cs, vs, heq, hcs, hvs, hv1, hv2, hcid⟩
    refine ⟨sf, [] ++ cs, [Node.query_router, Node.supervisor_agent] ++ vs, ?_, ?_, ?_, ?_, ?_, ?_⟩
    · simp only [runConversation, hturn, heq]
    · simp [hcs]
    · simp [hvs]
    · simp [hv1]
    · simp [hv2]
    · exact hcid

/-- C1: once `customer_id` is set (truthy) in conversation state,
verification is monotonic and non-revocable: for every continuation of
the conversation (any oracles, any responder, any further turns and
human inputs), every turn visits exactly `query_router` followed by the
specialist responder, the classification and extraction oracles are
never called again, `verify_customer` and `collect_email` are never
visited again, and `customer_id` is never cleared or changed. -/
theorem router_skips_after_verification (o : Oracles)
    (respond : CustomState → List Message) (fuel : Nat)
    (turns : List (String × List String)) (s : CustomState)
    (hcid : truthy s.customer_id = true) (hfuel : 2 ≤ fuel) :
    ∃ sf calls visited,
      runConversation o respond fuel turns s = some (sf, calls, visited) ∧
      calls = [] ∧
      visited = (turns.map (fun _ => [Node.query_router, Node.supervisor_agent])).flatten ∧
      Node.verify_customer ∉ visited ∧
      Node.collect_email ∉ visited ∧
      sf.customer_id = s.customer_id := by
  obtain ⟨k, rfl⟩ : ∃ k, fuel = k + 2 := ⟨fuel - 2, by omega⟩
  exact runConversation_verified_aux o respond k turns s hcid

/-- Witness for C1 at a concrete verified conversation. -/
theorem router_skips_after_verification_witness :
    truthy stateVerified.customer_id = true ∧ 2 ≤ 2 ∧
    (∃ sf calls visited,
      runConversation oraclesW respondW 2
        [("What is the status of my last order?", [])] stateVerified =
        some (sf, calls, visited) ∧
      calls = [] ∧
      visited = ([("What is the status of my last order?",
          ([] : List String))].map
            (fun _ => [Node.query_router, Node.supervisor_agent])).flatten ∧
      Node.verify_customer ∉ visited ∧
      Node.collect_email ∉ visited ∧
      sf.customer_id = stateVerified.customer_id) :=
  ⟨by decide, by decide,
    router_skips_after_verification oraclesW respondW 2
      [("What is the status of my last order?", [])] stateVerified
      (by decide) (by decide)⟩

/-- C2: with `customer_id` unset, `query_router` calls the
classification oracle exactly once, on the latest message; it goes to
`verify_customer` exactly when the classification requires verification
and to the specialist responder otherwise, writing nothing to the state
(in particular `customer_id` stays unset). -/
theorem router_classifies_when_unverified (o : Oracles) (s : CustomState)
    (m : Message)
    (hcid : truthy s.customer_id = false)
    (hm : s.messages.getLast? = some m) :
    query_router o s =
      some (⟨none, [],
          if (o.classify m.content).requires_verification then Node.verify_customer
          else Node.supervisor_agent⟩,
        [OracleCall.classifyCall m.content]) := by
  unfold query_router
  rw [hcid, hm]
  by_cases h : (o.classify m.content).requires_verification <;> simp [h]

/-- Witness for C2 at a concrete unverified policy question. -/
theorem router_classifies_when_unverified_witness :
    truthy statePolicy.customer_id = false ∧
    statePolicy.messages.getLast? =
      some (HumanMessage "What is your return policy?") ∧
    query_router oraclesPolicy statePolicy =
      some (⟨none, [],
          if (oraclesPolicy.classify
              (HumanMessage "What is your return policy?").content).requires_verification
          then Node.verify_customer else Node.supervisor_agent⟩,
        [OracleCall.classifyCall (HumanMessage "What is your return policy?").content]) :=
  ⟨by decide, by decide,
    router_classifies_when_unverified oraclesPolicy statePolicy
      (HumanMessage "What is your return policy?") (by decide) (by decide)⟩

/-- Witness for C3 at a concrete string lacking "@". -/
theorem validate_customer_email_structural_reject_witness :
    (("not-an-email".isEmpty = true) ∨ ("not-an-email".data.contains '@' = false)) ∧
    validate_customer_email_impl storeW "not-an-email" = (none, 0) :=
  ⟨Or.inr (by decide),
    validate_customer_email_structural_reject "not-an-email" (Or.inr (by decide)) storeW⟩

/-- Counterexample to C4 as stated: with a store row whose registered
email is "bob" (no "@") and an extraction returning exactly that
registered email, `verify_customer` transitions to `collect_email`, not
to the specialist responder, and sets no `customer_id`: the structural
check inside `validate_customer_email` rejects the string before the
store is consulted, so "registered" alone does not yield success. -/
theorem verify_registered_email_counterexample :
    (∃ c, c ∈ cexOracles.store ∧
      c.email = cexOracles.extract (HumanMessage "my email is bob").content) ∧
    (verify_customer cexOracles cexState).map (fun r => r.1.goto) =
      some Node.collect_email ∧
    (verify_customer cexOracles cexState).map (fun r => r.1.goto) ≠
      some Node.supervisor_agent ∧
    (verify_customer cexOracles cexState).map (fun r => r.1.setCid) = some none :=
  ⟨⟨cexCustomer, by decide, by decide⟩, by decide, by decide, by decide⟩

/-- C4 (amended): if the extraction oracle returns a non-empty email
that contains "@" and whose store lookup finds a customer row, then
`verify_customer` transitions to the specialist responder, sets
`customer_id` to that customer's identifier, and appends exactly one
assistant welcome message containing the customer's display name. -/
theorem verify_registered_valid_email_success (o : Oracles) (s : CustomState)
    (m : Message) (e : String) (c : Customer)
    (hm : s.messages.getLast? = some m)
    (he : o.extract m.content = e)
    (hne : e.isEmpty = false)
    (hat : e.data.contains '@' = true)
    (hlook : lookupCustomer o.store e = some c) :
    verify_customer o s =
      some (⟨some c.customer_id,
        [AIMessage ("✓ Verified! Welcome back, " ++ c.name ++ ".")],
        Node.supervisor_agent⟩, [OracleCall.extractCall m.content]) := by
  have hv : validate_customer_email o.store e = some ⟨c.customer_id, c.name⟩ := by
    unfold validate_customer_email validate_customer_email_impl
    rw [hne, hat]
    simp [hlook]
  unfold verify_customer
  rw [hm]
  simp only [he, hv, hne]
  simp

/-- Witness for C4 (amended) at Sarah Chen's registered email. -/
theorem verify_registered_valid_email_success_witness :
    stateSarah.messages.getLast? = some (HumanMessage "sarah.chen@gmail.com") ∧
    oraclesSarah.extract (HumanMessage "sarah.chen@gmail.com").content =
      "sarah.chen@gmail.com" ∧
    "sarah.chen@gmail.com".isEmpty = false ∧
    "sarah.chen@gmail.com".data.contains '@' = true ∧
    lookupCustomer oraclesSarah.store "sarah.chen@gmail.com" = some sarah ∧
    verify_customer oraclesSarah stateSarah =
      some (⟨some sarah.customer_id,
        [AIMessage ("✓ Verified! Welcome back, " ++ sarah.name ++ ".")],
        Node.supervisor_agent⟩,
        [OracleCall.extractCall (HumanMessage "sarah.chen@gmail.com").content]) :=
  ⟨by decide, by decide, by decide, by decide, by decide,
    verify_registered_valid_email_success oraclesSarah stateSarah
      (HumanMessage "sarah.chen@gmail.com") "sarah.chen@gmail.com" sarah
      (by decide) (by decide) (by decide) (by decide) (by decide)⟩

/-- C5: with `customer_id` unset, when extraction yields a non-empty
email registered for no customer in the store, `verify_customer` goes to
`collect_email`, the state gains exactly one new assistant message (the
not-found report), `customer_id` stays unset, and nothing else in the
state changes. -/
theorem verify_unknown_email_collects (o : Oracles) (s : CustomState)
    (m : Message) (e : String)
    (hm : s.messages.getLast? = some m)
    (he : o.extract m.content = e)
    (hne : e.isEmpty = false)
    (hnr : ∀ c ∈ o.store, c.email ≠ e)
    (hcid : truthy s.customer_id = false) :
    ∃ cmd : NodeCmd,
      verify_customer o s = some (cmd, [OracleCall.extractCall m.content]) ∧
      cmd.goto = Node.collect_email ∧
      cmd.newMsgs = [AIMessage ("I couldn't find '" ++ e ++
        "' in our system. Please check and try again.")] ∧
      applyCmd s cmd = ⟨s.messages ++ cmd.newMsgs, s.customer_id⟩ ∧
      truthy (applyCmd s cmd).customer_id = false := by
  have hlook : lookupCustomer o.store e = none := lookupCustomer_eq_none o.store e hnr
  have hv : validate_customer_email o.store e = none := by
    unfold validate_customer_email validate_customer_email_impl
    by_cases hat : e.data.contains '@'
    · rw [hne, hat]
      simp [hlook]
    · rw [hne, Bool.not_eq_true] at *
      rw [hat]
      simp
  refine ⟨⟨none, [AIMessage ("I couldn't find '" ++ e ++
      "' in our system. Please check and try again.")], Node.collect_email⟩,
    ?_, rfl, rfl, rfl, ?_⟩
  · unfold verify_customer
    rw [hm]
    simp only [he, hv, hne]
    simp
  · simpa [applyCmd] using hcid

/-- Witness for C5 at a concrete unregistered email. -/
theorem verify_unknown_email_collects_witness :
    stateUnknown.messages.getLast? = some (HumanMessage "zoe@nowhere.com") ∧
    oraclesUnknown.extract (HumanMessage "zoe@nowhere.com").content =
      "zoe@nowhere.com" ∧
    "zoe@nowhere.com".isEmpty = false ∧
    (∀ c ∈ oraclesUnknown.store, c.email ≠ "zoe@nowhere.com") ∧
    truthy stateUnknown.customer_id = false ∧
    (∃ cmd : NodeCmd,
      verify_customer oraclesUnknown stateUnknown =
        some (cmd, [OracleCall.extractCall (HumanMessage "zoe@nowhere.com").content]) ∧
      cmd.goto = Node.collect_email ∧
      cmd.newMsgs = [AIMessage ("I couldn't find '" ++ "zoe@nowhere.com" ++
        "' in our system. Please check and try again.")] ∧
      applyCmd stateUnknown cmd =
        ⟨stateUnknown.messages ++ cmd.newMsgs, stateUnknown.customer_id⟩ ∧
      truthy (applyCmd stateUnknown cmd).customer_id = false) :=
  ⟨by decide, by decide, by decide, by decide, by decide,
    verify_unknown_email_collects oraclesUnknown stateUnknown
      (HumanMessage "zoe@nowhere.com") "zoe@nowhere.com"
      (by decide) (by decide) (by decide) (by decide) (by decide)⟩

/-- C6: with `customer_id` unset, when extraction finds no email (empty
string), `verify_customer` goes to `collect_email`, appends exactly one
assistant message asking for an email address, and leaves `customer_id`
unset. -/
theorem verify_missing_email_asks (o : Oracles) (s : CustomState) (m : Message)
    (hm : s.messages.getLast? = some m)
    (he : o.extract m.content = "")
    (hcid : truthy s.customer_id = false) :
    ∃ cmd : NodeCmd,
      verify_customer o s = some (cmd, [OracleCall.extractCall m.content]) ∧
      cmd.goto = Node.collect_email ∧
      cmd.newMsgs = [AIMessage "To access information about your account or orders, please provide your email address."] ∧
      applyCmd s cmd = ⟨s.messages ++ cmd.newMsgs, s.customer_id⟩ ∧
      truthy (applyCmd s cmd).customer_id = false := by
  refine ⟨⟨none, [AIMessage "To access information about your account or orders, please provide your email address."],
      Node.collect_email⟩, ?_, rfl, rfl, rfl, ?_⟩
  · unfold verify_customer
    rw [hm]
    simp only [he]
    simp
    intro h
    exact absurd h (by decide)
  · simpa [applyCmd] using hcid

/-- Witness for C6 at a concrete message without an email. -/
theorem verify_missing_email_asks_witness :
    stateNoEmail.messages.getLast? = some (HumanMessage "Where are my orders?") ∧
    oraclesNoEmail.extract (HumanMessage "Where are my orders?").content = "" ∧
    truthy stateNoEmail.customer_id = false ∧
    (∃ cmd : NodeCmd,
      verify_customer oraclesNoEmail stateNoEmail =
        some (cmd, [OracleCall.extractCall (HumanMessage "Where are my orders?").content]) ∧
      cmd.goto = Node.collect_email ∧
      cmd.newMsgs = [AIMessage "To access information about your account or orders, please provide your email address."] ∧
      applyCmd stateNoEmail cmd =
        ⟨stateNoEmail.messages ++ cmd.newMsgs, stateNoEmail.customer_id⟩ ∧
      truthy (applyCmd stateNoEmail cmd).customer_id = false) :=
  ⟨by decide, by decide, by decide,
    verify_missing_email_asks oraclesNoEmail stateNoEmail
      (HumanMessage "Where are my orders?") (by decide) (by decide) (by decide)⟩

/-- C7: validation is idempotent and deterministic against a fixed
store: for a non-empty email containing "@" that is registered in the
store, `validate_customer_email` returns some `(customer_id, name)`
pair, and any two invocations with the same email against the same
store contents return that same pair. -/
theorem validate_customer_email_idempotent (store : List Customer) (email : String)
    (hne : email.isEmpty = false)
    (hat : email.data.contains '@' = true)
    (hreg : ∃ c, c ∈ store ∧ c.email = email) :
    ∃ info : CustomerInfo,
      validate_customer_email store email = some info ∧
      ∀ r₁ r₂ : Option CustomerInfo,
        validate_customer_email store email = r₁ →
        validate_customer_email store email = r₂ → r₁ = r₂ ∧ r₁ = some info := by
  rcases lookupCustomer_isSome_of_mem store email hreg with ⟨c, hc⟩
  have hv : validate_customer_email store email = some ⟨c.customer_id, c.name⟩ := by
    unfold validate_customer_email validate_customer_email_impl
    rw [hne, hat]
    simp [hc]
  refine ⟨⟨c.customer_id, c.name⟩, hv, ?_⟩
  intro r₁ r₂ h1 h2
  exact ⟨h1 ▸ h2 ▸ rfl, h1 ▸ hv⟩

/-- Witness for C7 at Sarah Chen's registered email. -/
theorem validate_customer_email_idempotent_witness :
    "sarah.chen@gmail.com".isEmpty = false ∧
    "sarah.chen@gmail.com".data.contains '@' = true ∧
    (∃ c, c ∈ storeW ∧ c.email = "sarah.chen@gmail.com") ∧
    (∃ info : CustomerInfo,
      validate_customer_email storeW "sarah.chen@gmail.com" = some info ∧
      ∀ r₁ r₂ : Option CustomerInfo,
        validate_customer_email storeW "sarah.chen@gmail.com" = r₁ →
        validate_customer_email storeW "sarah.chen@gmail.com" = r₂ →
        r₁ = r₂ ∧ r₁ = some info) :=
  ⟨by decide, by decide, ⟨sarah, by decide, by decide⟩,
    validate_customer_email_idempotent storeW "sarah.chen@gmail.com"
      (by decide) (by decide) ⟨sarah, by decide, by decide⟩⟩

/-- C8: `verify_customer` never transitions to the specialist responder
without carrying a resolved identity: whenever its `Command` goes to
`supervisor_agent`, the command writes a `customer_id`, so the resulting
state has one. -/
theorem verify_respond_requires_identity (o : Oracles) (s : CustomState)
    (cmd : NodeCmd) (calls : List OracleCall)
    (h : verify_customer o s = some (cmd, calls))
    (hg : cmd.goto = Node.supervisor_agent) :
    cmd.setCid.isSome = true ∧ ((applyCmd s cmd).customer_id).isSome = true := by
  unfold verify_customer at h
  rcases hl : s.messages.getLast? with _ | last
  · rw [hl] at h
    exact absurd h (by simp)
  · rw [hl] at h
    simp only [] at h
    split at h
    · injection h with hp
      injection hp with h1 h2
      subst h1
      simp at hg
    · split at h
      · injection h with hp
        injection hp with h1 h2
        subst h1
        exact ⟨rfl, rfl⟩
      · injection h with hp
        injection hp with h1 h2
        subst h1
        simp at hg

/-- Witness for C8 at the concrete verified transition for Sarah. -/
theorem verify_respond_requires_identity_witness :
    verify_customer oraclesSarah stateSarah =
      some (⟨some sarah.customer_id,
        [AIMessage ("✓ Verified! Welcome back, " ++ sarah.name ++ ".")],
        Node.supervisor_agent⟩,
        [OracleCall.extractCall "sarah.chen@gmail.com"]) ∧
    (⟨some sarah.customer_id,
        [AIMessage ("✓ Verified! Welcome back, " ++ sarah.name ++ ".")],
        Node.supervisor_agent⟩ : NodeCmd).goto = Node.supervisor_agent ∧
    ((⟨some sarah.customer_id,
        [AIMessage ("✓ Verified! Welcome back, " ++ sarah.name ++ ".")],
        Node.supervisor_agent⟩ : NodeCmd).setCid.isSome = true ∧
      ((applyCmd stateSarah ⟨some sarah.customer_id,
        [AIMessage ("✓ Verified! Welcome back, " ++ sarah.name ++ ".")],
        Node.supervisor_agent⟩).customer_id).isSome = true) :=
  ⟨by decide, by decide,
    verify_respond_requires_identity oraclesSarah stateSarah
      ⟨some sarah.customer_id,
        [AIMessage ("✓ Verified! Welcome back, " ++ sarah.name ++ ".")],
        Node.supervisor_agent⟩
      [OracleCall.extractCall "sarah.chen@gmail.com"]
      (by decide) (by decide)⟩

/-- C9: for a structurally valid email (non-empty, containing "@"), a
failing store lookup propagates out of `validate_customer_email` as an
error — the uncaught exception — and is therefore never the `Ok none`
that signals an unrecognized email. -/
theorem validate_store_failure_distinct
    (lookup : String → Except String (Option Customer)) (email err : String)
    (hne : email.isEmpty = false)
    (hat : email.data.contains '@' = true)
    (hfail : lookup email = Except.error err) :
    validate_customer_email_exc lookup email = Except.error err ∧
    ∀ r : Option CustomerInfo,
      validate_customer_email_exc lookup email ≠ Except.ok r := by
  have h : validate_customer_email_exc lookup email = Except.error err := by
    unfold validate_customer_email_exc
    rw [hne, hat]
    simp [hfail]
  refine ⟨h, ?_⟩
  intro r hr
  rw [h] at hr
  exact Except.noConfusion hr

/-- Witness for C9 at a concrete unreachable store. -/
theorem validate_store_failure_distinct_witness :
    "sarah.chen@gmail.com".isEmpty = false ∧
    "sarah.chen@gmail.com".data.contains '@' = true ∧
    failLookup "sarah.chen@gmail.com" = Except.error "store unreachable" ∧
    (validate_customer_email_exc failLookup "sarah.chen@gmail.com" =
        Except.error "store unreachable" ∧
      ∀ r : Option CustomerInfo,
        validate_customer_email_exc failLookup "sarah.chen@gmail.com" ≠
          Except.ok r) :=
  ⟨by decide, by decide, rfl,
    validate_store_failure_distinct failLookup "sarah.chen@gmail.com"
      "store unreachable" (by decide) (by decide) rfl⟩

/-- C10: any query that (after stripping and uppercasing) does not start
with SELECT, or whose uppercased text contains a forbidden keyword as a
substring, is answered by `execute_sql` with one of the two guard error
messages, identically for every database — nothing is ever executed for
it, so no non-SELECT statement ever runs. -/
theorem execute_sql_rejects_non_select (query : String)
    (h : strStartsWith (strUpper (strTrim query)) "SELECT" = false ∨
         FORBIDDEN.any (fun kw => pyIn kw (strUpper query)) = true) :
    ∀ db db' : String → Except String (List (List String)),
      execute_sql db query = execute_sql db' query ∧
      ∃ msg, execute_sql db query = SqlResult.errMsg msg ∧
        (msg = "Error: Only SELECT queries are allowed." ∨
         msg = "Error: Query contains forbidden keyword.") := by
  intro db db'
  unfold execute_sql
  rcases h with h | h
  · rw [h]
    exact ⟨rfl, "Error: Only SELECT queries are allowed.", rfl, Or.inl rfl⟩
  · rw [h]
    by_cases hs : strStartsWith (strUpper (strTrim query)) "SELECT"
    · rw [hs]
      exact ⟨rfl, "Error: Query contains forbidden keyword.", rfl, Or.inr rfl⟩
    · rw [Bool.not_eq_true] at hs
      rw [hs]
      exact ⟨rfl, "Error: Only SELECT queries are allowed.", rfl, Or.inl rfl⟩

/-- Witness for C10: a legitimate SELECT naming a `created_at` column is
rejected because CREATED_AT contains the forbidden substring CREATE. -/
theorem execute_sql_rejects_non_select_witness :
    (strStartsWith (strUpper (strTrim "SELECT created_at FROM orders")) "SELECT" = false ∨
      FORBIDDEN.any (fun kw => pyIn kw (strUpper "SELECT created_at FROM orders")) = true) ∧
    (execute_sql dbOk "SELECT created_at FROM orders" =
        execute_sql dbErr "SELECT created_at FROM orders" ∧
      ∃ msg, execute_sql dbOk "SELECT created_at FROM orders" = SqlResult.errMsg msg ∧
        (msg = "Error: Only SELECT queries are allowed." ∨
         msg = "Error: Query contains forbidden keyword.")) :=
  ⟨Or.inr (by decide),
    execute_sql_rejects_non_select "SELECT created_at FROM orders"
      (Or.inr (by decide)) dbOk dbErr⟩
